import Mathlib

/-
Verification of the NSE breadth analyser core against its specification.
The Python modules analysis.py, advanced_analysis.py, app.py and config.py
are shallowly embedded below: percent changes, volume ratios and scores are
rationals, pandas masks over a data frame become per-row functions over a
list of rows, and fallible code returns Except.
-/

namespace Breadth

/-- Thresholds.STRONG_MOVE from config.py (2.0). -/
def STRONG_MOVE : ℚ := 2

/-- Thresholds.MODERATE_MOVE from config.py (1.0). -/
def MODERATE_MOVE : ℚ := 1

/-- Thresholds.EXPLOSIVE_MOVE from config.py (5.0). -/
def EXPLOSIVE_MOVE : ℚ := 5

/-- Thresholds.STRONG_EXPLOSIVE from config.py (3.0). -/
def STRONG_EXPLOSIVE : ℚ := 3

/-- Thresholds.VOLUME_MULTIPLIER from config.py (1.0). -/
def VOLUME_MULTIPLIER : ℚ := 1

/-- Thresholds.EXTREME_BULL from config.py (0.8). -/
def EXTREME_BULL : ℚ := 8 / 10

/-- Thresholds.STRONG_BULL from config.py (0.4). -/
def STRONG_BULL : ℚ := 4 / 10

/-- Thresholds.WEAK_BULL from config.py (0.15). -/
def WEAK_BULL : ℚ := 15 / 100

/-- Thresholds.NO_TRADE_LOW from config.py (-0.15). -/
def NO_TRADE_LOW : ℚ := -15 / 100

/-- Thresholds.WEAK_BEAR from config.py (-0.4). -/
def WEAK_BEAR : ℚ := -4 / 10

/-- Thresholds.STRONG_BEAR from config.py (-0.8). -/
def STRONG_BEAR : ℚ := -8 / 10

/-- Thresholds.HISTORY_DAYS from config.py (30). -/
def HISTORY_DAYS : ℕ := 30

/-- One row of the analyser data frame: the columns consulted by
classify_stocks in analysis.py. -/
structure Quote where
  pctChange : ℚ
  volumeRatio : ℚ
deriving DecidableEq, Repr

/-- The five values the category column can take in classify_stocks. -/
inductive Category where
  | strongBull
  | weakBull
  | strongBear
  | weakBear
  | neutral
deriving DecidableEq, Repr

/-- BreadthAnalyzer.classify_stocks (analysis.py lines 26-62) restricted to a
single row: the category column starts as Neutral and the four masks are
applied in source order, each overwriting the rows it matches. -/
def classifyQuote (q : Quote) : Category :=
  let c0 := Category.neutral
  let c1 := if q.pctChange > STRONG_MOVE ∧ q.volumeRatio > VOLUME_MULTIPLIER then
    Category.strongBull else c0
  let c2 := if q.pctChange > STRONG_MOVE ∧ q.volumeRatio ≤ VOLUME_MULTIPLIER then
    Category.weakBull else c1
  let c3 := if q.pctChange < -STRONG_MOVE ∧ q.volumeRatio > VOLUME_MULTIPLIER then
    Category.strongBear else c2
  let c4 := if q.pctChange < -STRONG_MOVE ∧ q.volumeRatio ≤ VOLUME_MULTIPLIER then
    Category.weakBear else c3
  c4

/-- The first-match priority rule as the specification words it: StrongBull
when the move beats STRONG_MOVE with volume above VOLUME_MULTIPLIER, WeakBull
when the move beats STRONG_MOVE otherwise, the bear cases mirrored, Neutral
in all remaining cases. -/
def specCategory (q : Quote) : Category :=
  if q.pctChange > STRONG_MOVE then
    if q.volumeRatio > VOLUME_MULTIPLIER then Category.strongBull else Category.weakBull
  else if q.pctChange < -STRONG_MOVE then
    if q.volumeRatio > VOLUME_MULTIPLIER then Category.strongBear else Category.weakBear
  else
    Category.neutral

/-- The value_counts lookup of calculate_breadth_score: how many rows carry
category c. -/
def countCat (c : Category) (cats : List Category) : ℕ :=
  cats.countP (fun y => decide (y = c))

/-- round(q, d) as in the Python calls round(score, 3) and round(ratio, 2):
round to d decimal places, here as floor of q times 10 to the d plus one
half. Python rounds the nearest binary double to even; the two agree on
every value this development evaluates, none of which is an exact decimal
tie. -/
def roundDec (d : ℕ) (q : ℚ) : ℚ :=
  ((round (q * 10 ^ d) : ℤ) : ℚ) / 10 ^ d

/-- The dict self.breadth_data built by calculate_breadth_score
(analysis.py lines 85-96). bull_bear_ratio is float inf when there is no
bear, modelled as none. -/
structure BreadthSnapshot where
  score : ℚ
  strongBulls : ℕ
  weakBulls : ℕ
  strongBears : ℕ
  weakBears : ℕ
  neutral : ℕ
  total : ℕ
  totalBulls : ℕ
  totalBears : ℕ
  bullBearRatio : Option ℚ
deriving DecidableEq, Repr

/-- The integer numerator of calculate_breadth_score (analysis.py line 75):
2 strong bulls + weak bulls - 2 strong bears - weak bears. -/
def breadthNumerator (cats : List Category) : ℤ :=
  (countCat Category.strongBull cats : ℤ) * 2 + (countCat Category.weakBull cats : ℤ)
    - (countCat Category.strongBear cats : ℤ) * 2 - (countCat Category.weakBear cats : ℤ)

/-- The local variable score of calculate_breadth_score (analysis.py line
78): numerator over row count, 0 when the denominator is 0. -/
def breadthRawScore (cats : List Category) : ℚ :=
  if 0 < cats.length then (breadthNumerator cats : ℚ) / (cats.length : ℚ) else 0

/-- BreadthAnalyzer.calculate_breadth_score (analysis.py lines 64-98) on the
category column. The stored score is round(score, 3) and the stored ratio is
round(ratio, 2), exactly as the source writes them into breadth_data. -/
def calculate_breadth_score (cats : List Category) : BreadthSnapshot :=
  let strongBulls := countCat Category.strongBull cats
  let weakBulls := countCat Category.weakBull cats
  let strongBears := countCat Category.strongBear cats
  let weakBears := countCat Category.weakBear cats
  let totalBulls := strongBulls + weakBulls
  let totalBears := strongBears + weakBears
  { score := roundDec 3 (breadthRawScore cats)
    strongBulls := strongBulls
    weakBulls := weakBulls
    strongBears := strongBears
    weakBears := weakBears
    neutral := countCat Category.neutral cats
    total := cats.length
    totalBulls := totalBulls
    totalBears := totalBears
    bullBearRatio :=
      if 0 < totalBears then some (roundDec 2 ((totalBulls : ℚ) / (totalBears : ℚ)))
      else none }

/-- The seven regime keys of REGIMES in config.py. -/
inductive Regime where
  | extremeBull
  | strongBull
  | weakBull
  | noTrade
  | weakBear
  | strongBear
  | extremeBear
deriving DecidableEq, Repr

/-- BreadthAnalyzer.classify_regime (analysis.py lines 199-228): the elif
chain over the stored breadth score, scanned from the highest boundary
down, the top comparison strict and all the others inclusive. The source
reads the score out of breadth_data, so the argument here is the stored
(rounded) score. -/
def classify_regime (score : ℚ) : Regime :=
  if score > EXTREME_BULL then Regime.extremeBull
  else if score ≥ STRONG_BULL then Regime.strongBull
  else if score ≥ WEAK_BULL then Regime.weakBull
  else if score ≥ NO_TRADE_LOW then Regime.noTrade
  else if score ≥ WEAK_BEAR then Regime.weakBear
  else if score ≥ STRONG_BEAR then Regime.strongBear
  else Regime.extremeBear

/-- The end-to-end scenario table from the specification: 10 instruments,
6 up 3 percent on volume ratio 1.5 and 4 down 3 percent on volume ratio
0.5. -/
def scenarioQuotes : List Quote :=
  List.replicate 6 ⟨3, 3 / 2⟩ ++ List.replicate 4 ⟨-3, 1 / 2⟩

/-- The dict self.magnitude_data of calculate_magnitude_analysis. -/
structure MagnitudeData where
  ultraScore : ℚ
  explosiveUp : ℕ
  strongUp : ℕ
  moderateUp : ℕ
  explosiveDown : ℕ
  strongDown : ℕ
  moderateDown : ℕ
deriving DecidableEq, Repr

/-- BreadthAnalyzer.calculate_magnitude_analysis (analysis.py lines 156-197):
six bucket counts over pct_change with the exact comparison operators of the
source (up side explosive strict above 5, strong inclusive on both of 3 and
5, moderate inclusive at 2 and strict below 3; down side explosive strict
below -5, strong inclusive at -3 and strict above -5, moderate inclusive at
-2 and strict above -3), and the ultra-weighted score. -/
def calculate_magnitude_analysis (l : List Quote) : MagnitudeData :=
  let explosiveUp := (l.filter (fun q => decide (q.pctChange > EXPLOSIVE_MOVE))).length
  let strongUp := (l.filter (fun q =>
    decide (q.pctChange ≥ STRONG_EXPLOSIVE ∧ q.pctChange ≤ EXPLOSIVE_MOVE))).length
  let moderateUp := (l.filter (fun q =>
    decide (q.pctChange ≥ STRONG_MOVE ∧ q.pctChange < STRONG_EXPLOSIVE))).length
  let explosiveDown := (l.filter (fun q => decide (q.pctChange < -EXPLOSIVE_MOVE))).length
  let strongDown := (l.filter (fun q =>
    decide (q.pctChange ≤ -STRONG_EXPLOSIVE ∧ q.pctChange > -EXPLOSIVE_MOVE))).length
  let moderateDown := (l.filter (fun q =>
    decide (q.pctChange ≤ -STRONG_MOVE ∧ q.pctChange > -STRONG_EXPLOSIVE))).length
  let numerator : ℤ := (explosiveUp : ℤ) * 3 + (strongUp : ℤ) * 2 + (moderateUp : ℤ)
    - (explosiveDown : ℤ) * 3 - (strongDown : ℤ) * 2 - (moderateDown : ℤ)
  { ultraScore := roundDec 3 (if 0 < l.length then (numerator : ℚ) / (l.length : ℚ) else 0)
    explosiveUp := explosiveUp
    strongUp := strongUp
    moderateUp := moderateUp
    explosiveDown := explosiveDown
    strongDown := strongDown
    moderateDown := moderateDown }

/-- One record of the breadth history file: the dict written by
HistoryManager.save_score with keys date, score and regime. -/
structure HistRecord where
  date : String
  score : ℚ
  regime : Regime
deriving DecidableEq, Repr

/-- HistoryManager.save_score (analysis.py lines 273-293) on the loaded
history list: drop any record carrying the same date string, append the new
record, keep the last HISTORY_DAYS records. -/
def save_score (dateStr : String) (score : ℚ) (regime : Regime)
    (history : List HistRecord) : List HistRecord :=
  let filtered := history.filter (fun h => decide (h.date ≠ dateStr))
  let appended := filtered ++ [⟨dateStr, score, regime⟩]
  appended.drop (appended.length - HISTORY_DAYS)

/-- The analyser pipeline of app.py lines 105-114: classify, build the
breadth dict, then classify the regime from the stored breadth_data score. -/
def analyzeRegime (quotes : List Quote) : Regime :=
  classify_regime (calculate_breadth_score (quotes.map classifyQuote)).score

/-- The history write of app.py line 130: save_score receives the stored
breadth_data score and the regime. -/
def runDailySave (quotes : List Quote) (ds : String) (hist : List HistRecord) :
    List HistRecord :=
  save_score ds (calculate_breadth_score (quotes.map classifyQuote)).score
    (analyzeRegime quotes) hist

/-- Python division raising ZeroDivisionError on a zero denominator,
otherwise the exact rational quotient. -/
def pyDiv (a b : ℚ) : Except String ℚ :=
  if b = 0 then Except.error "ZeroDivisionError" else Except.ok (a / b)

/-- The status strings of calculate_market_temperature. -/
inductive TempStatus where
  | overheated
  | hot
  | warm
  | tempNeutral
  | cool
  | cold
deriving DecidableEq, Repr

/-- The dict returned by calculate_market_temperature. -/
structure Temperature where
  temperature : ℚ
  status : TempStatus
  breadth : ℚ
  momentum : ℚ
  volume : ℚ
deriving DecidableEq, Repr

/-- AdvancedAnalysis.calculate_market_temperature (advanced_analysis.py
lines 16-57). The first statement divides the count of rising rows by the
row count with no guard, so the empty table is a ZeroDivisionError; the two
mean computations likewise divide by the row count. -/
def calculate_market_temperature (l : List Quote) : Except String Temperature := do
  let upFrac ← pyDiv ((l.filter (fun q => decide (q.pctChange > 0))).length : ℚ) (l.length : ℚ)
  let upPct := upFrac * 40
  let avgChange ← pyDiv (l.map (fun q => q.pctChange)).sum (l.length : ℚ)
  let momentumScore := min (max ((avgChange + 2) / 4 * 30) 0) 30
  let avgVolRatio ← pyDiv (l.map (fun q => q.volumeRatio)).sum (l.length : ℚ)
  let volumeScore := min (max ((avgVolRatio - 1 / 2) / (3 / 2) * 30) 0) 30
  let temperature := upPct + momentumScore + volumeScore
  let status :=
    if temperature > 80 then TempStatus.overheated
    else if temperature > 60 then TempStatus.hot
    else if temperature > 40 then TempStatus.warm
    else if temperature > 30 then TempStatus.tempNeutral
    else if temperature > 20 then TempStatus.cool
    else TempStatus.cold
  return { temperature := roundDec 1 temperature
           status := status
           breadth := roundDec 1 upPct
           momentum := roundDec 1 momentumScore
           volume := roundDec 1 volumeScore }

/-- The three conditions detect_capitulation_or_euphoria can report. -/
inductive CapCondition where
  | capitulation
  | euphoria
  | normal
deriving DecidableEq, Repr

/-- The dict returned by detect_capitulation_or_euphoria, reduced to its
condition and explosive_moves_pct entries. -/
structure CapResult where
  condition : CapCondition
  explosiveMovesPct : ℚ
deriving DecidableEq, Repr

/-- AdvancedAnalysis.calculate_magnitude_stats (advanced_analysis.py lines
216-223): counts of rows beyond plus and minus 5 percent. -/
def calculate_magnitude_stats (l : List Quote) : ℕ × ℕ :=
  ((l.filter (fun q => decide (q.pctChange > 5))).length,
   (l.filter (fun q => decide (q.pctChange < -5))).length)

/-- AdvancedAnalysis.detect_capitulation_or_euphoria (advanced_analysis.py
lines 182-214): the capitulation percentage divides by the row count with
no guard, so the empty table is a ZeroDivisionError. -/
def detect_capitulation_or_euphoria (l : List Quote) : Except String CapResult := do
  let stats := calculate_magnitude_stats l
  let downFrac ← pyDiv (stats.2 : ℚ) (l.length : ℚ)
  let explosiveDownPct := downFrac * 100
  if explosiveDownPct > 15 then
    return ⟨CapCondition.capitulation, roundDec 1 explosiveDownPct⟩
  let upFrac ← pyDiv (stats.1 : ℚ) (l.length : ℚ)
  let explosiveUpPct := upFrac * 100
  if explosiveUpPct > 15 then
    return ⟨CapCondition.euphoria, roundDec 1 explosiveUpPct⟩
  return ⟨CapCondition.normal, 0⟩

/-- The first component of the pair detect_divergence returns. -/
inductive DivSignal where
  | bearish
  | bullish
deriving DecidableEq, Repr

/-- The four message strings detect_divergence returns, as an enumeration. -/
inductive DivMsg where
  | insufficientData
  | distributionWarning
  | accumulationSignal
  | noDivergence
deriving DecidableEq, Repr

/-- The generator-and-all loop of detect_divergence: every adjacent pair of
the list satisfies p. -/
def pairwiseAdjAll (p : ℚ → ℚ → Bool) : List ℚ → Bool
  | a :: b :: rest => p a b && pairwiseAdjAll p (b :: rest)
  | _ => true

/-- The scores of the last three records, in list order: history drop of
length minus 3, then the score field (analysis.py lines 333-334). -/
def lastThreeScores (history : List HistRecord) : List ℚ :=
  (history.drop (history.length - 3)).map HistRecord.score

/-- HistoryManager.detect_divergence (analysis.py lines 325-344): fewer than
3 records is insufficient data; bearish when the current score is positive
and the last three scores strictly fall pairwise-adjacently; bullish when
the current score is negative and they strictly rise; no divergence
otherwise. -/
def detect_divergence (currentScore : ℚ) (history : List HistRecord) :
    Option DivSignal × DivMsg :=
  if history.length < 3 then (none, DivMsg.insufficientData)
  else if decide (currentScore > 0)
      && pairwiseAdjAll (fun a b => decide (a > b)) (lastThreeScores history) then
    (some DivSignal.bearish, DivMsg.distributionWarning)
  else if decide (currentScore < 0)
      && pairwiseAdjAll (fun a b => decide (a < b)) (lastThreeScores history) then
    (some DivSignal.bullish, DivMsg.accumulationSignal)
  else (none, DivMsg.noDivergence)

/-- Component 1 of calculate_fear_greed_index (app.py lines 681-690): the
raw breadth sub-score band table over the 3-day average breadth score, with
the exact comparison operators of the source (strict above 0.8 at the top,
inclusive lower bounds below). 97.5 is 195/2, 59.5 is 119/2, 49.5 is 99/2,
39.5 is 79/2, 29.5 is 59/2, 4.5 is 9/2. -/
def breadthComponentRaw (breadth3day : ℚ) : ℚ :=
  if breadth3day > 8 / 10 then 195 / 2
  else if breadth3day ≥ 6 / 10 then 87
  else if breadth3day ≥ 4 / 10 then 72
  else if breadth3day ≥ 2 / 10 then 119 / 2
  else if breadth3day ≥ 0 then 99 / 2
  else if breadth3day ≥ -2 / 10 then 79 / 2
  else if breadth3day ≥ -4 / 10 then 59 / 2
  else if breadth3day ≥ -6 / 10 then 17
  else 9 / 2

/-- A Python value coming back from json.load in load_history: either a
JSON array of history records, or any other JSON document (object, string,
number, boolean, null), which json.load parses and load_history returns
unchecked. -/
inductive PyValue where
  | list (records : List HistRecord)
  | nonListJson
deriving DecidableEq, Repr

/-- The state of the backing history file as load_history observes it:
absent, unreadable or unparseable (open or json.load raises), or parsed
into a Python value. -/
inductive FileState where
  | missing
  | unreadable
  | parsed (v : PyValue)
deriving DecidableEq, Repr

/-- HistoryManager.load_history (analysis.py lines 263-271): an absent file
gives the empty list, any exception while opening or parsing gives the
empty list, and a successful parse is returned as is, without checking that
it is a list. -/
def load_history : FileState → PyValue
  | FileState.missing => PyValue.list []
  | FileState.unreadable => PyValue.list []
  | FileState.parsed v => v

/-- Whether a Python value is a list. -/
def PyValue.isList : PyValue → Bool
  | PyValue.list _ => true
  | PyValue.nonListJson => false

/-- C1: the sequential-mask classifier agrees with the first-match priority
rule, a quote sitting exactly on STRONG_MOVE (or on -STRONG_MOVE) is Neutral
whatever its volume ratio, and identical inputs receive identical
categories. -/
theorem classify_stocks_first_match (q : Quote) :
    classifyQuote q = specCategory q ∧
    (q.pctChange = STRONG_MOVE → classifyQuote q = Category.neutral) ∧
    (q.pctChange = -STRONG_MOVE → classifyQuote q = Category.neutral) ∧
    (∀ q2 : Quote, q.pctChange = q2.pctChange → q.volumeRatio = q2.volumeRatio →
      classifyQuote q = classifyQuote q2) := by
  have hmain : classifyQuote q = specCategory q := by
    unfold classifyQuote specCategory STRONG_MOVE VOLUME_MULTIPLIER
    by_cases h1 : (2 : ℚ) < q.pctChange <;>
      by_cases h2 : (1 : ℚ) < q.volumeRatio <;>
      by_cases h3 : q.pctChange < -2 <;>
      split_ifs <;>
      first
        | rfl
        | (exfalso; try simp_all only [not_lt, not_le, gt_iff_lt, and_true, true_and,
            and_false, false_and, not_true, not_false_iff]; try linarith)
  refine ⟨hmain, ?_, ?_, ?_⟩
  · intro h
    rw [hmain]
    unfold specCategory
    rw [h]
    split_ifs <;> first | rfl | (exfalso; unfold STRONG_MOVE at *; linarith)
  · intro h
    rw [hmain]
    unfold specCategory
    rw [h]
    split_ifs <;> first | rfl | (exfalso; unfold STRONG_MOVE at *; linarith)
  · intro q2 hp hv
    unfold classifyQuote
    rw [hp, hv]

/-- C1 witness: concrete boundary quotes evaluated through the theorem. -/
theorem classify_stocks_first_match_witness :
    classifyQuote ⟨2, 5⟩ = Category.neutral ∧ classifyQuote ⟨-2, 5⟩ = Category.neutral :=
  ⟨(classify_stocks_first_match ⟨2, 5⟩).2.1 rfl,
   (classify_stocks_first_match ⟨-2, 5⟩).2.2.1 rfl⟩

lemma countCat_cons (x c : Category) (t : List Category) :
    countCat c (x :: t) = countCat c t + if x = c then 1 else 0 := by
  simp [countCat, List.countP_cons]

lemma countCat_partition (cats : List Category) :
    countCat Category.strongBull cats + countCat Category.weakBull cats +
      countCat Category.strongBear cats + countCat Category.weakBear cats +
      countCat Category.neutral cats = cats.length := by
  induction cats with
  | nil => rfl
  | cons x t ih =>
    cases x <;> simp only [countCat_cons, List.length_cons] <;>
      split_ifs <;> simp_all <;> omega

/-- C2: the raw breadth score is the weighted count formula over the row
count, defined as 0 on an empty table, always lies between -2 and 2, is 0
on an all-neutral table, and the snapshot total equals both the sum of the
five category counts and the table size. -/
theorem calculate_breadth_score_spec (cats : List Category) :
    breadthRawScore cats =
      (if 0 < cats.length then
        ((countCat Category.strongBull cats : ℚ) * 2 + (countCat Category.weakBull cats : ℚ)
          - (countCat Category.strongBear cats : ℚ) * 2 - (countCat Category.weakBear cats : ℚ))
          / (cats.length : ℚ)
      else 0) ∧
    (cats.length = 0 → breadthRawScore cats = 0) ∧
    -2 ≤ breadthRawScore cats ∧ breadthRawScore cats ≤ 2 ∧
    ((∀ c ∈ cats, c = Category.neutral) → breadthRawScore cats = 0) ∧
    (calculate_breadth_score cats).total =
      countCat Category.strongBull cats + countCat Category.weakBull cats +
        countCat Category.strongBear cats + countCat Category.weakBear cats +
        countCat Category.neutral cats ∧
    (calculate_breadth_score cats).total = cats.length := by
  have hpart := countCat_partition cats
  have hform : breadthRawScore cats =
      (if 0 < cats.length then
        ((countCat Category.strongBull cats : ℚ) * 2 + (countCat Category.weakBull cats : ℚ)
          - (countCat Category.strongBear cats : ℚ) * 2 - (countCat Category.weakBear cats : ℚ))
          / (cats.length : ℚ)
      else 0) := by
    unfold breadthRawScore breadthNumerator
    split_ifs with h
    · push_cast
      ring_nf
    · rfl
  have hbounds : -2 ≤ breadthRawScore cats ∧ breadthRawScore cats ≤ 2 := by
    unfold breadthRawScore
    split_ifs with h
    · have hlen : (0 : ℚ) < (cats.length : ℚ) := by exact_mod_cast h
      have hnum_le : breadthNumerator cats ≤ 2 * (cats.length : ℤ) := by
        unfold breadthNumerator; omega
      have hnum_ge : -(2 * (cats.length : ℤ)) ≤ breadthNumerator cats := by
        unfold breadthNumerator; omega
      constructor
      · rw [le_div_iff₀ hlen]
        have : ((-(2 * (cats.length : ℤ)) : ℤ) : ℚ) ≤ ((breadthNumerator cats : ℤ) : ℚ) := by
          exact_mod_cast hnum_ge
        push_cast at this ⊢
        linarith
      · rw [div_le_iff₀ hlen]
        have : ((breadthNumerator cats : ℤ) : ℚ) ≤ ((2 * (cats.length : ℤ) : ℤ) : ℚ) := by
          exact_mod_cast hnum_le
        push_cast at this ⊢
        linarith
    · norm_num
  refine ⟨hform, ?_, hbounds.1, hbounds.2, ?_, ?_, ?_⟩
  · intro h
    unfold breadthRawScore
    rw [h]
    rfl
  · intro hall
    have hzero : ∀ c : Category, c ≠ Category.neutral → countCat c cats = 0 := by
      intro c hc
      unfold countCat
      rw [List.countP_eq_zero]
      intro a ha
      simp only [decide_eq_true_eq]
      intro hac
      exact hc (hac ▸ hall a ha)
    unfold breadthRawScore breadthNumerator
    rw [hzero Category.strongBull (by decide), hzero Category.weakBull (by decide),
      hzero Category.strongBear (by decide), hzero Category.weakBear (by decide)]
    split_ifs <;> norm_num
  · show cats.length = _
    omega
  · rfl

/-- C2 witness: the theorem applied at an all-neutral singleton and at the
empty table, discharging both hypotheses. -/
theorem calculate_breadth_score_spec_witness :
    breadthRawScore [Category.neutral] = 0 ∧ breadthRawScore ([] : List Category) = 0 :=
  ⟨(calculate_breadth_score_spec [Category.neutral]).2.2.2.2.1 (by decide),
   (calculate_breadth_score_spec ([] : List Category)).2.1 rfl⟩

/-- C3: each regime is selected exactly on its score band, the highest band
strictly above EXTREME_BULL, and on the 10-instrument scenario (6 strong
bulls, 4 weak bears) the raw score is 0.8, which the strict top comparison
places in the StrongBull band, not ExtremeBull. -/
theorem classify_regime_spec (s : ℚ) :
    (classify_regime s = Regime.extremeBull ↔ EXTREME_BULL < s) ∧
    (classify_regime s = Regime.strongBull ↔ STRONG_BULL ≤ s ∧ s ≤ EXTREME_BULL) ∧
    (classify_regime s = Regime.weakBull ↔ WEAK_BULL ≤ s ∧ s < STRONG_BULL) ∧
    (classify_regime s = Regime.noTrade ↔ NO_TRADE_LOW ≤ s ∧ s < WEAK_BULL) ∧
    (classify_regime s = Regime.weakBear ↔ WEAK_BEAR ≤ s ∧ s < NO_TRADE_LOW) ∧
    (classify_regime s = Regime.strongBear ↔ STRONG_BEAR ≤ s ∧ s < WEAK_BEAR) ∧
    (classify_regime s = Regime.extremeBear ↔ s < STRONG_BEAR) ∧
    breadthRawScore (scenarioQuotes.map classifyQuote) = 8 / 10 ∧
    (countCat Category.strongBull (scenarioQuotes.map classifyQuote) = 6 ∧
      countCat Category.weakBear (scenarioQuotes.map classifyQuote) = 4) ∧
    classify_regime (calculate_breadth_score (scenarioQuotes.map classifyQuote)).score =
      Regime.strongBull := by
  have hconst : EXTREME_BULL = 8 / 10 ∧ STRONG_BULL = 4 / 10 ∧ WEAK_BULL = 15 / 100 ∧
      NO_TRADE_LOW = -15 / 100 ∧ WEAK_BEAR = -4 / 10 ∧ STRONG_BEAR = -8 / 10 :=
    ⟨rfl, rfl, rfl, rfl, rfl, rfl⟩
  obtain ⟨e1, e2, e3, e4, e5, e6⟩ := hconst
  have hup : classifyQuote ⟨3, 3 / 2⟩ = Category.strongBull := by
    norm_num [classifyQuote, STRONG_MOVE, VOLUME_MULTIPLIER]
  have hdown : classifyQuote ⟨-3, 1 / 2⟩ = Category.weakBear := by
    norm_num [classifyQuote, STRONG_MOVE, VOLUME_MULTIPLIER]
  have hmap : List.map classifyQuote scenarioQuotes =
      List.replicate 6 Category.strongBull ++ List.replicate 4 Category.weakBear := by
    simp only [scenarioQuotes, List.map_append, List.map_replicate, hup, hdown]
  have hnum : breadthNumerator (List.map classifyQuote scenarioQuotes) = 8 := by
    rw [hmap]; decide
  have hlen : (List.map classifyQuote scenarioQuotes).length = 10 := by
    rw [hmap]; decide
  have hraw : breadthRawScore (List.map classifyQuote scenarioQuotes) = 8 / 10 := by
    unfold breadthRawScore
    rw [hnum, hlen, if_pos (by norm_num)]
    norm_num
  have hround : roundDec 3 ((8 : ℚ) / 10) = 8 / 10 := by
    unfold roundDec
    rw [show ((8 : ℚ) / 10) * 10 ^ 3 = ((800 : ℤ) : ℚ) by norm_num, round_intCast]
    norm_num
  have hfinal : classify_regime
      (calculate_breadth_score (scenarioQuotes.map classifyQuote)).score =
      Regime.strongBull := by
    have hscore : (calculate_breadth_score (scenarioQuotes.map classifyQuote)).score =
        roundDec 3 (breadthRawScore (scenarioQuotes.map classifyQuote)) := rfl
    rw [hscore, hraw, hround]
    norm_num [classify_regime, EXTREME_BULL, STRONG_BULL]
  have hcounts : countCat Category.strongBull (scenarioQuotes.map classifyQuote) = 6 ∧
      countCat Category.weakBear (scenarioQuotes.map classifyQuote) = 4 := by
    rw [hmap]; exact ⟨by decide, by decide⟩
  refine ⟨?_, ?_, ?_, ?_, ?_, ?_, ?_, hraw, hcounts, hfinal⟩ <;>
    (clear hup hdown hmap hnum hlen hraw hround hfinal hcounts
     constructor
     · intro h
       unfold classify_regime at h
       split_ifs at h with h1 h2 h3 h4 h5 h6 <;>
         first
           | exact absurd h (by decide)
           | (rw [e1, e2, e3, e4, e5, e6] at *
              first | (constructor <;> linarith) | linarith)
     · intro h
       try obtain ⟨ha, hb⟩ := h
       unfold classify_regime
       rw [e1, e2, e3, e4, e5, e6] at *
       split_ifs with h1 h2 h3 h4 h5 h6 <;> first | rfl | (exfalso; linarith))

/-- C3 witness: the band characterisations instantiated on concrete scores
on both sides of the 0.8 boundary. -/
theorem classify_regime_spec_witness :
    classify_regime (8 / 10) = Regime.strongBull ∧
    classify_regime (801 / 1000) = Regime.extremeBull :=
  ⟨((classify_regime_spec (8 / 10)).2.1).mpr (by norm_num [STRONG_BULL, EXTREME_BULL]),
   ((classify_regime_spec (801 / 1000)).1).mpr (by norm_num [EXTREME_BULL])⟩

/-- C4 evaluated at the failing input: an instrument moving exactly -5.0
percent, whose magnitude is at the EXPLOSIVE_MOVE boundary and beyond
STRONG_MOVE, lands in none of the six buckets, while its mirror at +5.0 is
counted by strong_up. The symmetry and exhaustiveness the specification
states fail at this single point. -/
theorem magnitude_gap_at_minus_five :
    (calculate_magnitude_analysis [⟨-5, 1⟩]).explosiveDown = 0 ∧
    (calculate_magnitude_analysis [⟨-5, 1⟩]).strongDown = 0 ∧
    (calculate_magnitude_analysis [⟨-5, 1⟩]).moderateDown = 0 ∧
    (calculate_magnitude_analysis [⟨-5, 1⟩]).explosiveUp = 0 ∧
    (calculate_magnitude_analysis [⟨-5, 1⟩]).strongUp = 0 ∧
    (calculate_magnitude_analysis [⟨-5, 1⟩]).moderateUp = 0 ∧
    (calculate_magnitude_analysis [⟨5, 1⟩]).strongUp = 1 ∧
    STRONG_MOVE ≤ |(-5 : ℚ)| := by
  refine ⟨?_, ?_, ?_, ?_, ?_, ?_, ?_, by norm_num [STRONG_MOVE]⟩ <;>
    norm_num [calculate_magnitude_analysis, List.filter_cons, decide_eq_true_eq,
      EXPLOSIVE_MOVE, STRONG_EXPLOSIVE, STRONG_MOVE]

lemma save_score_eq (ds : String) (s : ℚ) (r : Regime) (h : List HistRecord) :
    save_score ds s r h =
      (h.filter (fun x => decide (x.date ≠ ds))).drop
        ((h.filter (fun x => decide (x.date ≠ ds))).length + 1 - HISTORY_DAYS) ++
      [⟨ds, s, r⟩] := by
  unfold save_score HISTORY_DAYS
  simp only [List.length_append, List.length_singleton]
  rw [List.drop_append_of_le_length (by omega)]

lemma filter_not_date_mem (ds : String) (h : List HistRecord) (x : HistRecord)
    (hx : x ∈ h.filter (fun y => decide (y.date ≠ ds))) : x.date ≠ ds := by
  have := List.of_mem_filter hx
  simpa using this

lemma filter_length_of_nodup (ds : String) (h : List HistRecord)
    (hnd : (h.map HistRecord.date).Nodup) (hmem : ds ∈ h.map HistRecord.date) :
    (h.filter (fun y => decide (y.date ≠ ds))).length + 1 = h.length := by
  induction h with
  | nil => simp at hmem
  | cons x t ih =>
    simp only [List.map_cons, List.nodup_cons] at hnd
    by_cases hx : x.date = ds
    · have hnotin : ∀ y ∈ t, y.date ≠ ds := by
        intro y hy hydate
        exact hnd.1 (hx ▸ hydate ▸ List.mem_map_of_mem HistRecord.date hy)
      have hfil : t.filter (fun y => decide (y.date ≠ ds)) = t :=
        List.filter_eq_self.mpr (fun y hy => by simpa using hnotin y hy)
      rw [List.filter_cons, if_neg (by simp [hx]), hfil, List.length_cons]
    · have hmem' : ds ∈ t.map HistRecord.date := by
        rcases List.mem_cons.mp hmem with h1 | h1
        · exact absurd h1.symm hx
        · exact h1
      have := ih hnd.2 hmem'
      simp only [List.filter_cons, List.length_cons]
      rw [if_pos (by simpa using hx)]
      simp only [List.length_cons]
      omega

lemma filter_save_score (ds : String) (s : ℚ) (r : Regime) (h : List HistRecord) :
    (save_score ds s r h).filter (fun x => decide (x.date ≠ ds)) =
      (h.filter (fun x => decide (x.date ≠ ds))).drop
        ((h.filter (fun x => decide (x.date ≠ ds))).length + 1 - HISTORY_DAYS) := by
  rw [save_score_eq, List.filter_append]
  have h1 : ([⟨ds, s, r⟩] : List HistRecord).filter (fun x => decide (x.date ≠ ds)) = [] := by
    simp
  have h2 : ((h.filter (fun x => decide (x.date ≠ ds))).drop
      ((h.filter (fun x => decide (x.date ≠ ds))).length + 1 - HISTORY_DAYS)).filter
        (fun x => decide (x.date ≠ ds)) =
      (h.filter (fun x => decide (x.date ≠ ds))).drop
        ((h.filter (fun x => decide (x.date ≠ ds))).length + 1 - HISTORY_DAYS) := by
    apply List.filter_eq_self.mpr
    intro y hy
    have hy' : y ∈ h.filter (fun x => decide (x.date ≠ ds)) :=
      List.mem_of_mem_drop hy
    simpa using filter_not_date_mem ds h y hy'
  rw [h1, h2, List.append_nil]

/-- C5: writing a day into a history whose dates are pairwise distinct and
whose length is within the cap keeps the dates pairwise distinct, keeps the
length within HISTORY_DAYS, puts the new record in the history, leaves the
length unchanged when the date was already present, and a repeated
identical write changes nothing. -/
theorem save_score_spec (h : List HistRecord) (ds : String) (s : ℚ) (r : Regime)
    (hnd : (h.map HistRecord.date).Nodup) (hlen : h.length ≤ HISTORY_DAYS) :
    ((save_score ds s r h).map HistRecord.date).Nodup ∧
    (save_score ds s r h).length ≤ HISTORY_DAYS ∧
    (⟨ds, s, r⟩ : HistRecord) ∈ save_score ds s r h ∧
    (ds ∈ h.map HistRecord.date → (save_score ds s r h).length = h.length) ∧
    save_score ds s r (save_score ds s r h) = save_score ds s r h := by
  have hfle : (h.filter (fun x => decide (x.date ≠ ds))).length ≤ h.length :=
    List.length_filter_le _ _
  refine ⟨?_, ?_, ?_, ?_, ?_⟩
  · rw [save_score_eq, List.map_append]
    have hsub : ((h.filter (fun x => decide (x.date ≠ ds))).drop
        ((h.filter (fun x => decide (x.date ≠ ds))).length + 1 - HISTORY_DAYS)).map
          HistRecord.date |>.Sublist (h.map HistRecord.date) := by
      exact List.Sublist.map HistRecord.date
        ((List.drop_sublist _ _).trans (List.filter_sublist h))
    have hnd' := hnd.sublist hsub
    have hnotin : ds ∉ ((h.filter (fun x => decide (x.date ≠ ds))).drop
        ((h.filter (fun x => decide (x.date ≠ ds))).length + 1 - HISTORY_DAYS)).map
          HistRecord.date := by
      intro hmem
      rcases List.mem_map.mp hmem with ⟨y, hy, hyeq⟩
      exact filter_not_date_mem ds h y (List.mem_of_mem_drop hy) hyeq
    rw [List.nodup_append]
    refine ⟨hnd', List.nodup_singleton _, ?_⟩
    intro a ha hb
    simp only [List.map_cons, List.map_nil, List.mem_singleton] at hb
    exact hnotin (hb ▸ ha)
  · rw [save_score_eq, List.length_append, List.length_drop, List.length_singleton]
    unfold HISTORY_DAYS at *
    omega
  · rw [save_score_eq]
    exact List.mem_append_right _ (List.mem_singleton.mpr rfl)
  · intro hmem
    have hflen := filter_length_of_nodup ds h hnd hmem
    rw [save_score_eq, List.length_append, List.length_drop, List.length_singleton]
    unfold HISTORY_DAYS at *
    omega
  · rw [save_score_eq ds s r (save_score ds s r h), filter_save_score]
    have hk : ((h.filter (fun x => decide (x.date ≠ ds))).drop
        ((h.filter (fun x => decide (x.date ≠ ds))).length + 1 - HISTORY_DAYS)).length
          + 1 - HISTORY_DAYS = 0 := by
      rw [List.length_drop]
      unfold HISTORY_DAYS at *
      omega
    rw [hk, List.drop_zero, ← save_score_eq]

/-- C5 witness: replacing the single record of a one-day history through the
theorem, both hypotheses discharged on the concrete history. -/
theorem save_score_spec_witness :
    (save_score "2024-01-02" 1 Regime.noTrade
        [⟨"2024-01-02", 0, Regime.noTrade⟩]).length = 1 ∧
    (⟨"2024-01-02", (1 : ℚ), Regime.noTrade⟩ : HistRecord) ∈
      save_score "2024-01-02" 1 Regime.noTrade [⟨"2024-01-02", 0, Regime.noTrade⟩] :=
  ⟨(save_score_spec [⟨"2024-01-02", 0, Regime.noTrade⟩] "2024-01-02" 1 Regime.noTrade
      (by simp) (by simp [HISTORY_DAYS])).2.2.2.1 (by simp),
   (save_score_spec [⟨"2024-01-02", 0, Regime.noTrade⟩] "2024-01-02" 1 Regime.noTrade
      (by simp) (by simp [HISTORY_DAYS])).2.2.1⟩

lemma third_example_scores :
    breadthRawScore [Category.weakBull, Category.neutral, Category.neutral] = 1 / 3 ∧
    (calculate_breadth_score [Category.weakBull, Category.neutral, Category.neutral]).score
      = 333 / 1000 := by
  have hnum : breadthNumerator [Category.weakBull, Category.neutral, Category.neutral] = 1 := by
    decide
  have hraw : breadthRawScore [Category.weakBull, Category.neutral, Category.neutral]
      = 1 / 3 := by
    unfold breadthRawScore
    rw [hnum, if_pos (by decide)]
    norm_num
  refine ⟨hraw, ?_⟩
  have hscore : (calculate_breadth_score
      [Category.weakBull, Category.neutral, Category.neutral]).score =
      roundDec 3 (breadthRawScore [Category.weakBull, Category.neutral, Category.neutral]) :=
    rfl
  rw [hscore, hraw]
  unfold roundDec
  rw [round_eq, show ((1 : ℚ) / 3) * 10 ^ 3 + 1 / 2 = 2003 / 6 by norm_num]
  rw [show ⌊(2003 : ℚ) / 6⌋ = 333 from by
    rw [Int.floor_eq_iff] <;> norm_num]
  norm_num

/-- C6 counterexample: on a table classified as one Weak Bull and two
Neutral instruments the raw score is 1/3, but the snapshot stores 0.333, so
the stored value is not the unrounded computed value. -/
theorem stored_score_is_rounded_counterexample :
    (calculate_breadth_score [Category.weakBull, Category.neutral, Category.neutral]).score ≠
      breadthRawScore [Category.weakBull, Category.neutral, Category.neutral] := by
  rw [third_example_scores.1, third_example_scores.2]
  norm_num

/-- C6 amended: rounding happens at computation time, not only at
presentation. The snapshot stores the raw score rounded to 3 decimals (and
the bull-bear ratio rounded to 2, by construction of the snapshot), regime
classification consumes exactly that rounded stored score, and the history
write records it as well; on the 1-Weak-Bull-2-Neutral table the stored
value 0.333 differs from the raw 1/3. -/
theorem rounding_at_computation_time (quotes : List Quote) (ds : String)
    (hist : List HistRecord) :
    (calculate_breadth_score (quotes.map classifyQuote)).score =
      roundDec 3 (breadthRawScore (quotes.map classifyQuote)) ∧
    analyzeRegime quotes =
      classify_regime (roundDec 3 (breadthRawScore (quotes.map classifyQuote))) ∧
    runDailySave quotes ds hist =
      save_score ds (roundDec 3 (breadthRawScore (quotes.map classifyQuote)))
        (analyzeRegime quotes) hist ∧
    (calculate_breadth_score [Category.weakBull, Category.neutral, Category.neutral]).score
      = 333 / 1000 ∧
    breadthRawScore [Category.weakBull, Category.neutral, Category.neutral] = 1 / 3 :=
  ⟨rfl, rfl, rfl, third_example_scores.2, third_example_scores.1⟩

/-- C7 evaluated at the failing input: on the empty instrument table both
the market temperature computation and the capitulation or euphoria
detector stop with a division by zero instead of returning a defined
value. -/
theorem zero_rows_raise_zero_division :
    calculate_market_temperature [] = Except.error "ZeroDivisionError" ∧
    detect_capitulation_or_euphoria [] = Except.error "ZeroDivisionError" := by
  constructor
  · rfl
  · rfl

lemma lastThreeScores_length (h : List HistRecord) (hlen : 3 ≤ h.length) :
    (lastThreeScores h).length = 3 := by
  unfold lastThreeScores
  rw [List.length_map, List.length_drop]
  omega

lemma exists_three_of_length (l : List ℚ) (hl : l.length = 3) :
    ∃ a b c, l = [a, b, c] := by
  match l, hl with
  | [a, b, c], _ => exact ⟨a, b, c, rfl⟩

lemma pairwiseAdjAll_iff_chain (p : ℚ → ℚ → Bool) (l : List ℚ) :
    pairwiseAdjAll p l = true ↔ l.Chain' (fun x y => p x y = true) := by
  induction l with
  | nil => simp [pairwiseAdjAll]
  | cons a t ih =>
    cases t with
    | nil => simp [pairwiseAdjAll]
    | cons b r =>
      simp [pairwiseAdjAll, List.chain'_cons, ih]

lemma pairwiseAdjAll_gt_iff (l : List ℚ) :
    (pairwiseAdjAll (fun x y => decide (x > y)) l = true) ↔
      l.Pairwise (fun x y => x > y) := by
  rw [pairwiseAdjAll_iff_chain]
  simp only [decide_eq_true_eq]
  exact List.chain'_iff_pairwise

lemma pairwiseAdjAll_lt_iff (l : List ℚ) :
    (pairwiseAdjAll (fun x y => decide (x < y)) l = true) ↔
      l.Pairwise (fun x y => x < y) := by
  rw [pairwiseAdjAll_iff_chain]
  simp only [decide_eq_true_eq]
  exact List.chain'_iff_pairwise

/-- C8: divergence reports insufficient data exactly on histories shorter
than 3 records; on longer histories it reports bearish exactly when the
current score is positive and the last three scores are strictly
decreasing, bullish exactly when the current score is negative and the
last three are strictly increasing, and no divergence in every remaining
case. -/
theorem detect_divergence_spec (c : ℚ) (h : List HistRecord) :
    (detect_divergence c h = (none, DivMsg.insufficientData) ↔ h.length < 3) ∧
    (3 ≤ h.length →
      ((detect_divergence c h = (some DivSignal.bearish, DivMsg.distributionWarning)) ↔
        (0 < c ∧ (lastThreeScores h).Pairwise (fun x y => x > y))) ∧
      ((detect_divergence c h = (some DivSignal.bullish, DivMsg.accumulationSignal)) ↔
        (c < 0 ∧ (lastThreeScores h).Pairwise (fun x y => x < y))) ∧
      ((detect_divergence c h = (none, DivMsg.noDivergence)) ↔
        (¬(0 < c ∧ (lastThreeScores h).Pairwise (fun x y => x > y)) ∧
         ¬(c < 0 ∧ (lastThreeScores h).Pairwise (fun x y => x < y))))) := by
  by_cases hlen : h.length < 3
  · refine ⟨?_, fun hge => absurd hge (by omega)⟩
    unfold detect_divergence
    rw [if_pos hlen]
    exact iff_of_true rfl hlen
  · have e1 : (decide (c > 0)
        && pairwiseAdjAll (fun x y => decide (x > y)) (lastThreeScores h)) = true ↔
        (0 < c ∧ (lastThreeScores h).Pairwise (fun x y => x > y)) := by
      rw [Bool.and_eq_true, decide_eq_true_eq, pairwiseAdjAll_gt_iff]
    have e2 : (decide (c < 0)
        && pairwiseAdjAll (fun x y => decide (x < y)) (lastThreeScores h)) = true ↔
        (c < 0 ∧ (lastThreeScores h).Pairwise (fun x y => x < y)) := by
      rw [Bool.and_eq_true, decide_eq_true_eq, pairwiseAdjAll_lt_iff]
    refine ⟨?_, fun _ => ?_⟩
    · unfold detect_divergence
      rw [if_neg hlen]
      constructor
      · intro heq
        split_ifs at heq <;> simp_all
      · intro hcon
        exact absurd hcon hlen
    · unfold detect_divergence
      rw [if_neg hlen]
      refine ⟨?_, ?_, ?_⟩
      · by_cases hP1 : 0 < c ∧ (lastThreeScores h).Pairwise (fun x y => x > y)
        · rw [if_pos (e1.mpr hP1)]
          exact iff_of_true rfl hP1
        · rw [if_neg (fun hb => hP1 (e1.mp hb))]
          split_ifs <;> exact iff_of_false (by decide) hP1
      · by_cases hP2 : c < 0 ∧ (lastThreeScores h).Pairwise (fun x y => x < y)
        · have hnb1 : ¬(decide (c > 0)
              && pairwiseAdjAll (fun x y => decide (x > y)) (lastThreeScores h)) = true := by
            intro hb
            have := (e1.mp hb).1
            linarith [hP2.1]
          rw [if_neg hnb1, if_pos (e2.mpr hP2)]
          exact iff_of_true rfl hP2
        · split_ifs with hb1 hb2
          · exact iff_of_false (by decide) hP2
          · exact absurd (e2.mp hb2) hP2
          · exact iff_of_false (by decide) hP2
      · by_cases hP1 : 0 < c ∧ (lastThreeScores h).Pairwise (fun x y => x > y)
        · rw [if_pos (e1.mpr hP1)]
          exact iff_of_false (by decide) (fun hh => hh.1 hP1)
        · rw [if_neg (fun hb => hP1 (e1.mp hb))]
          by_cases hP2 : c < 0 ∧ (lastThreeScores h).Pairwise (fun x y => x < y)
          · rw [if_pos (e2.mpr hP2)]
            exact iff_of_false (by decide) (fun hh => hh.2 hP2)
          · rw [if_neg (fun hb => hP2 (e2.mp hb))]
            exact iff_of_true rfl ⟨hP1, hP2⟩

/-- C8 witness: a three-day history with strictly falling scores and a
positive current score reported bearish, through the theorem. -/
theorem detect_divergence_spec_witness :
    detect_divergence 1 [⟨"2024-01-01", 3, Regime.noTrade⟩, ⟨"2024-01-02", 2, Regime.noTrade⟩,
        ⟨"2024-01-03", 1, Regime.noTrade⟩] =
      (some DivSignal.bearish, DivMsg.distributionWarning) :=
  (((detect_divergence_spec 1 [⟨"2024-01-01", 3, Regime.noTrade⟩,
      ⟨"2024-01-02", 2, Regime.noTrade⟩, ⟨"2024-01-03", 1, Regime.noTrade⟩]).2
    (by simp)).1).mpr
    ⟨by norm_num, by
      unfold lastThreeScores
      simp only [List.length_cons, List.length_nil]
      norm_num [List.pairwise_cons]⟩

/-- C9 counterexample: a 3-day breadth average of exactly 0.8 falls through
the strict top comparison and receives the lower band value 87, not the
higher band value 97.5. -/
theorem fear_greed_boundary_counterexample :
    breadthComponentRaw (8 / 10) = 87 ∧ (87 : ℚ) ≠ 195 / 2 := by
  constructor
  · unfold breadthComponentRaw
    rw [if_neg (by norm_num), if_pos (by norm_num)]
  · norm_num

/-- C9 amended: the top band of the breadth sub-score table applies only
strictly above 0.8; at exactly 0.8 the sub-score takes the lower band raw
value 87, the value of the whole band from 0.6 up to and including 0.8. -/
theorem fear_greed_boundary_amended (x : ℚ) :
    breadthComponentRaw (8 / 10) = 87 ∧
    (8 / 10 < x → breadthComponentRaw x = 195 / 2) ∧
    (6 / 10 ≤ x → x ≤ 8 / 10 → breadthComponentRaw x = 87) := by
  refine ⟨?_, ?_, ?_⟩
  · unfold breadthComponentRaw
    rw [if_neg (by norm_num), if_pos (by norm_num)]
  · intro hx
    unfold breadthComponentRaw
    rw [if_pos hx]
  · intro h1 h2
    unfold breadthComponentRaw
    rw [if_neg (not_lt.mpr h2), if_pos h1]

/-- C9 witness: the amended theorem applied just above and at the
boundary. -/
theorem fear_greed_boundary_amended_witness :
    breadthComponentRaw (9 / 10) = 195 / 2 ∧ breadthComponentRaw (8 / 10) = 87 :=
  ⟨(fear_greed_boundary_amended (9 / 10)).2.1 (by norm_num),
   (fear_greed_boundary_amended (8 / 10)).2.2 (by norm_num) (by norm_num)⟩

/-- C10 counterexample: a backing file holding a valid JSON document that
is not an array (for example an object) parses successfully, and
load_history returns that non-list value, so load_history does not return
a list for every state of the backing file. -/
theorem load_history_nonlist_counterexample :
    ¬ ∃ l : List HistRecord,
        load_history (FileState.parsed PyValue.nonListJson) = PyValue.list l := by
  rintro ⟨l, hl⟩
  simp [load_history] at hl

/-- C10 amended: load_history never raises; a missing file and an
unreadable or unparseable file both give the empty list, and a successful
parse is returned unchanged, which is a list exactly when the file held a
JSON array. -/
theorem load_history_amended (v : PyValue) :
    load_history FileState.missing = PyValue.list [] ∧
    load_history FileState.unreadable = PyValue.list [] ∧
    load_history (FileState.parsed v) = v ∧
    ((load_history (FileState.parsed v)).isList = true ↔
      ∃ l : List HistRecord, v = PyValue.list l) := by
  refine ⟨rfl, rfl, rfl, ?_⟩
  cases v with
  | list records => simp [load_history, PyValue.isList]
  | nonListJson => simp [load_history, PyValue.isList]

/-- C6 witness: the amended theorem applied on the concrete
1-Weak-Bull-2-Neutral table. -/
theorem rounding_at_computation_time_witness :
    (calculate_breadth_score [Category.weakBull, Category.neutral, Category.neutral]).score
      = 333 / 1000 :=
  (rounding_at_computation_time [] "2024-01-01" []).2.2.2.1

/-- C10 witness: the amended theorem applied at a parsed empty JSON
array. -/
theorem load_history_amended_witness :
    load_history (FileState.parsed (PyValue.list [])) = PyValue.list [] :=
  (load_history_amended (PyValue.list [])).2.2.1

end Breadth
